import Mathlib

/-!
Shallow embedding of the per-vCPU execution core of the `enarx` KVM backend
(`src/backend/kvm/thread.rs`): the GHCB page-state-change protocol
(`handle_ghcb_request`, `handle_msr_page_state_request`, `handle_vmgexit`),
the syscall-trigger mailbox pass inside `enter`, and the `balloon` enarxcall.

Machine integers are modelled as `Nat`; every guest-supplied field keeps its
full source range.  The device-level operation `set_memory_attributes` and
the item-execution effects (`sallyport::host::execute`,
`personality.enarxcall`) are abstracted as oracles, and each invocation of
`set_memory_attributes` is recorded as a `(gpa, size, private)` triple so
that theorems can speak about exactly which attribute changes were requested.
Rust panics (out-of-bounds indexing, `unwrap` on `None`) are explicit
outcomes, and `anyhow` errors (`ensure!`/`bail!`/`?`) are a `fatal` outcome.
-/

namespace Enarx

/-- libc constant `EINVAL` on Linux. -/
def EINVAL : Nat := 22

/-- libc constant `SYS_exit` on x86-64 Linux. -/
def SYS_exit : Nat := 60

/-- libc constant `SYS_exit_group` on x86-64 Linux. -/
def SYS_exit_group : Nat := 231

/-- Modelled from the spec: the page-state-change descriptor
(`SnpPscDesc`, defined in `backend/sev/snp/ghcb.rs`, which is outside the
provided sources) overlays the GHCB's 2032-byte shared buffer and holds
`cur_entry : u16`, `end_entry : u16`, a reserved `u32`, and a fixed array of
253 packed 64-bit entries (2 + 2 + 4 + 253 * 8 = 2032 bytes).  Each entry's
raw `u64` is kept directly; the reserved field is dropped. -/
structure SnpPscDesc where
  cur_entry : Nat
  end_entry : Nat
  entries : List Nat
deriving DecidableEq, Repr

/-- Outcome of running the page-state-change while-loop of
`handle_ghcb_request`.  `panicked i` is a Rust index-out-of-bounds panic at
`entries[i]`; `fatal` is an `ensure!` failure (2MiB page-size flag or nonzero
offset bits) propagated as an `anyhow` error; `done cur info2 calls` is
normal loop exit with final cursor `cur`, final `sw_exit_info2` value
`info2`, and the list of `set_memory_attributes` calls made;
`outOfFuel` marks exhaustion of the step budget of the model. -/
inductive PscOutcome where
  | panicked (idx : Nat)
  | fatal
  | done (cur : Nat) (info2 : Nat) (calls : List (Nat × Nat × Bool))
  | outOfFuel (cur : Nat) (info2 : Nat) (calls : List (Nat × Nat × Bool))
deriving DecidableEq, Repr

/-- Dispatch on the 4-bit operation code of one descriptor entry
(the `match operation` in `handle_ghcb_request`): returns the
`set_memory_attributes` calls made and `none` for `Ok(())` or `some e` for
`Err(e)`.  Operations 1/2 change the 4KiB page at `gpa` to private/shared
(failure of the attribute change yields guest error `0x0000_0100_0000_0000`);
3/4 are ignorable hints; anything else is the invalid-entry error
`0x0000_0001_0000_0002`. -/
def pscOpResult (setAttr : Nat → Bool → Bool) (operation gpa : Nat) :
    List (Nat × Nat × Bool) × Option Nat :=
  if operation = 1 then
    ([(gpa, 0x1000, true)],
      if setAttr gpa true then none else some 0x0000010000000000)
  else if operation = 2 then
    ([(gpa, 0x1000, false)],
      if setAttr gpa false then none else some 0x0000010000000000)
  else if operation = 3 then ([], none)
  else if operation = 4 then ([], none)
  else ([], some 0x0000000100000002)

/-- The `while psc_desc.cur_entry <= psc_desc.end_entry` loop of
`handle_ghcb_request`, with an explicit fuel so the model is structurally
recursive.  Each iteration reads `entries[cur]` (a panic when `cur` is not a
valid index), checks `page_size = 0` and the offset bits `= 0` (`ensure!`,
fatal on violation), dispatches on the operation, and on success increments
the cursor, while on an error code writes it to `sw_exit_info2` and breaks. -/
def pscLoopFuel (setAttr : Nat → Bool → Bool) (entries : List Nat)
    (endv : Nat) : Nat → Nat → Nat → List (Nat × Nat × Bool) → PscOutcome
  | 0, cur, info2, calls =>
    if cur ≤ endv then PscOutcome.outOfFuel cur info2 calls
    else PscOutcome.done cur info2 calls
  | Nat.succ f, cur, info2, calls =>
    if cur ≤ endv then
      match entries.get? cur with
      | none => PscOutcome.panicked cur
      | some entry =>
        if (entry >>> 56) &&& 1 = 0 then
          if entry &&& 0xfff = 0 then
            match (pscOpResult setAttr ((entry >>> 52) &&& 0xf)
                (entry &&& 0x7fffffffff000)).2 with
            | none =>
              pscLoopFuel setAttr entries endv f (cur + 1) info2
                (calls ++ (pscOpResult setAttr ((entry >>> 52) &&& 0xf)
                  (entry &&& 0x7fffffffff000)).1)
            | some e =>
              PscOutcome.done cur e
                (calls ++ (pscOpResult setAttr ((entry >>> 52) &&& 0xf)
                  (entry &&& 0x7fffffffff000)).1)
          else PscOutcome.fatal
        else PscOutcome.fatal
    else PscOutcome.done cur info2 calls

/-- Run the page-state-change loop of `handle_ghcb_request` on a descriptor,
starting from `sw_exit_info2 = info2`, with fuel `end_entry + 1 - cur_entry`
(one unit per loop iteration; `pscLoopFuel_fuel_sufficient` shows this
budget is never exhausted). -/
def processPsc (setAttr : Nat → Bool → Bool) (desc : SnpPscDesc)
    (info2 : Nat) : PscOutcome :=
  pscLoopFuel setAttr desc.entries desc.end_entry
    (desc.end_entry + 1 - desc.cur_entry) desc.cur_entry info2 []

/-- Recognizer for the fuel-exhaustion outcome of the model. -/
def PscOutcome.isOutOfFuel : PscOutcome → Bool
  | .outOfFuel .. => true
  | _ => false

/-- Modelled from the spec: the `save_area` fields of the GHCB that
`handle_ghcb_request` touches (the struct itself lives in
`backend/sev/snp/ghcb.rs`, outside the provided sources):
`sw_exit_code : u64`, `sw_exit_info2 : u64`, `sw_scratch : u64`. -/
structure SaveArea where
  sw_exit_code : Nat
  sw_exit_info2 : Nat
  sw_scratch : Nat
deriving DecidableEq, Repr

/-- Modelled from the spec: the 4096-byte GHCB structure, reduced to the
fields `handle_ghcb_request` reads or writes: the save area, the 2032-byte
shared buffer (held here already overlaid as its `SnpPscDesc`
reinterpretation, which is lossless since every bit pattern is a valid
descriptor), `protocol_version : u32` and `ghcb_usage : u32`. -/
structure Ghcb where
  save_area : SaveArea
  shared_buffer : SnpPscDesc
  protocol_version : Nat
  ghcb_usage : Nat
deriving DecidableEq, Repr

/-- Outcome of `handle_ghcb_request` once the GHCB has been located:
`fatal` for any `ensure!`/`bail!` error, or the outcome of the
page-state-change loop (whose `done` case is the handler returning
`Ok(())`). -/
inductive GhcbOutcome where
  | fatal
  | psc (o : PscOutcome)
deriving DecidableEq, Repr

/-- The body of `handle_ghcb_request` after the GHCB at guest-physical page
`gfn` has been located in a mapped region and reinterpreted in place (the
region lookup itself — `context("can't find GHCB")` on failure — is prior to
everything modelled here and independent of the GHCB contents).  It checks
`ghcb_usage == 0` and `protocol_version <= 2` (`ensure!`), dispatches on
`sw_exit_code` (only `0x8000_0010` is implemented, all else `bail!`s),
requires `sw_scratch == gfn + 2048`, and then runs the page-state-change
loop over the shared buffer. -/
def handleGhcbRequest (setAttr : Nat → Bool → Bool) (gfn : Nat)
    (ghcb : Ghcb) : GhcbOutcome :=
  if ghcb.ghcb_usage = 0 then
    if ghcb.protocol_version ≤ 2 then
      if ghcb.save_area.sw_exit_code = 0x80000010 then
        if ghcb.save_area.sw_scratch = gfn + 2048 then
          GhcbOutcome.psc
            (processPsc setAttr ghcb.shared_buffer ghcb.save_area.sw_exit_info2)
        else GhcbOutcome.fatal
      else GhcbOutcome.fatal
    else GhcbOutcome.fatal
  else GhcbOutcome.fatal

/-- Result of `handle_msr_page_state_request`: the list of
`set_memory_attributes` calls made (as `(gpa, size, private)`) paired with
`true` for `Ok(())` and `false` for an error return (`bail!` on an
unimplemented operation, or a failed attribute change propagated by `?`). -/
def handle_msr_page_state_request (setAttr : Nat → Bool → Bool)
    (ghcb_msr : Nat) : List (Nat × Nat × Bool) × Bool :=
  let gpa := ghcb_msr &&& 0x7fffffffff000
  let page_operation := (ghcb_msr >>> 52) &&& 0xf
  if page_operation = 1 then ([(gpa, 0x1000, true)], setAttr gpa true)
  else if page_operation = 2 then ([(gpa, 0x1000, false)], setAttr gpa false)
  else ([], false)

/-- The dispatch of `handle_vmgexit` on the low 12 bits of the GHCB MSR
value: `0x000` calls `handle_ghcb_request(ghcb_msr)`, `0x014` calls
`handle_msr_page_state_request(ghcb_msr)`, and any other function code
`bail!`s. -/
inductive VmgexitDispatch where
  | ghcbRequest (ghcb_msr : Nat)
  | msrPsc (ghcb_msr : Nat)
  | unimplemented (f : Nat)
deriving DecidableEq, Repr

/-- Which handler `handle_vmgexit` invokes for a given MSR value. -/
def vmgexitDispatch (ghcb_msr : Nat) : VmgexitDispatch :=
  if ghcb_msr &&& 0xfff = 0x000 then VmgexitDispatch.ghcbRequest ghcb_msr
  else if ghcb_msr &&& 0xfff = 0x014 then VmgexitDispatch.msrPsc ghcb_msr
  else VmgexitDispatch.unimplemented (ghcb_msr &&& 0xfff)

/-- The protocol items decoded from a sallyport block, as consumed by the
`for item in block` loop of `enter`: gdb calls (inert here, since the model
follows a build without the `gdb` feature), enarxcalls and syscalls.  The
`argv` of a syscall is the source's `[usize; 6]` argument array. -/
inductive Item where
  | gdbcall
  | enarxcall (num : Nat) (argv : List Nat)
  | syscall (num : Nat) (argv : List Nat)
deriving DecidableEq, Repr

/-- The item loop of `enter` over one decoded block.  `exec` abstracts the
effectful execution of a non-exit item (`kvm_enarxcall` plus
`personality.enarxcall` plus `sallyport::host::execute`), returning whether
it succeeded; a failure propagates out of `enter` via `?` (`Except.error`).
A syscall whose number is `SYS_exit` or `SYS_exit_group` short-circuits with
`some argv[0]`; completing all items yields `none`. -/
def processItems (exec : Item → Bool) : List Item → Except Unit (Option Nat)
  | [] => Except.ok none
  | Item.gdbcall :: rest => processItems exec rest
  | Item.enarxcall num argv :: rest =>
    if exec (Item.enarxcall num argv) then processItems exec rest
    else Except.error ()
  | Item.syscall num argv :: rest =>
    if num = SYS_exit ∨ num = SYS_exit_group then
      Except.ok (some (argv.headD 0))
    else if exec (Item.syscall num argv) then processItems exec rest
    else Except.error ()

/-- Outcome of the syscall-trigger branch of `enter`
(`VcpuExit::IoOut(KVM_SYSCALL_TRIGGER_PORT, data)`).  `panicOob i` is the
Rust bounds-check panic of `sallyports[i]` for `i` past the end of the
vector; `panicUnwrap` is the `.take().unwrap()` panic on an already-empty
slot; `fatal` is an item-execution error propagated with `?`; `exit s sp`
is `Command::Exit(s)` and `cont sp` is `Command::Continue`, each carrying
the final state of the `sallyports` vector. -/
inductive EnterOutcome where
  | panicOob (idx : Nat)
  | panicUnwrap
  | fatal
  | exit (status : Nat) (sallyports : List (Option Nat))
  | cont (sallyports : List (Option Nat))
deriving DecidableEq, Repr

/-- The syscall-trigger branch of `enter`: decode the 2-byte little-endian
mailbox index from the port data, index into `keep.sallyports`
(a bounds-check panic when out of range), `take()` the slot (`unwrap`
panics when it is already empty), decode the block into items (`itemsOf`
abstracts the block contents reachable from the taken virtual address),
process them in order, and on normal completion `replace` the slot with the
block that was taken before returning `Continue`.  On the exit path the
slot is left empty; on an item-execution error the `?` propagates with the
slot also left empty. -/
def enterIoOut (exec : Item → Bool) (itemsOf : Nat → List Item)
    (sallyports : List (Option Nat)) (data0 data1 : Nat) : EnterOutcome :=
  let block_nr := data0 + data1 * 256
  match sallyports.get? block_nr with
  | none => EnterOutcome.panicOob block_nr
  | some none => EnterOutcome.panicUnwrap
  | some (some block_virt) =>
    match processItems exec (itemsOf block_virt) with
    | Except.error _ => EnterOutcome.fatal
    | Except.ok (some status) =>
      EnterOutcome.exit status (sallyports.set block_nr none)
    | Except.ok none =>
      EnterOutcome.cont ((sallyports.set block_nr none).set block_nr
        (some block_virt))

/-- The `balloon` method.  `pgsz` is the host page size reported by
`sysconf(_SC_PAGE_SIZE)`; `alloc` abstracts the anonymous read-write host
mapping of the requested byte count (`Map::bytes(..)`, errors already
collapsed to an errno via `unwrap_or(ENOTSUP)`); `mapVm` abstracts
`keep.map(pages, addr, is_private)` returning the region's
`userspace_addr`.  The result pairs the returned `sallyport::Result` with
the list of host-memory allocation sizes performed.  `usize` arithmetic
follows the 64-bit release build: `1usize << log2` masks the shift amount
modulo the bit width, and `size * npgs` wraps modulo `2 ^ 64` (a debug
build would panic on either overflow instead). -/
def balloon (pgsz : Nat) (alloc : Nat → Except Nat Nat)
    (mapVm : Nat → Nat → Bool → Except Nat Nat)
    (log2 npgs addr : Nat) (is_private : Bool) :
    Except Nat Nat × List Nat :=
  let size := 1 <<< (log2 % 64)
  if size ≠ pgsz ∨ addr % size ≠ 0 then (Except.error EINVAL, [])
  else
    match alloc (size * npgs % 2 ^ 64) with
    | Except.error e => (Except.error e, [size * npgs % 2 ^ 64])
    | Except.ok pages =>
      match mapVm pages addr is_private with
      | Except.error e => (Except.error e, [size * npgs % 2 ^ 64])
      | Except.ok userspace_addr =>
        (Except.ok userspace_addr, [size * npgs % 2 ^ 64])

/-- Modelled from the spec: the guest-physical page address of a descriptor
entry as the spec describes it, namely the value of bits 12 through 51 of
the entry, with the low 12 bits zero. -/
def specGpaBits12to51 (entry : Nat) : Nat := ((entry >>> 12) % 2 ^ 40) <<< 12

/-- The guest-physical page address field the code actually extracts:
bits 12 through 50 of the entry, with the low 12 bits zero (this is the
spec-style reading of the mask `0x7_ffff_ffff_f000 = 2 ^ 51 - 2 ^ 12`). -/
def specGpaBits12to50 (entry : Nat) : Nat := ((entry >>> 12) % 2 ^ 39) <<< 12

/-- The source's GPA mask `0x7_ffff_ffff_f000` keeps exactly bits 12
through 50 of its argument. -/
theorem and_gpa_mask_eq (x : Nat) :
    x &&& 0x7fffffffff000 = specGpaBits12to50 x := by
  have hm : (0x7fffffffff000 : Nat) = (2 ^ 39 - 1) <<< 12 := by decide
  rw [hm, specGpaBits12to50]
  apply Nat.eq_of_testBit_eq
  intro i
  rw [Nat.testBit_and, Nat.testBit_shiftLeft, Nat.testBit_shiftLeft,
    Nat.testBit_two_pow_sub_one, Nat.testBit_mod_two_pow,
    Nat.testBit_shiftRight]
  by_cases h12 : 12 ≤ i
  · have hd : decide (i ≥ 12) = true := by simp [ge_iff_le, h12]
    have hi : 12 + (i - 12) = i := by omega
    rw [hd, hi]
    cases x.testBit i <;> simp
  · have hd : decide (i ≥ 12) = false := by simp [ge_iff_le, h12]
    rw [hd]
    simp

/-- A fuel of `endv + 1 - cur` steps is enough for the page-state-change
loop: each iteration either increments the cursor (which is bounded above
by the loop guard `cur ≤ endv`, and the host never modifies `end_entry`) or
leaves the loop, so the fuel is never exhausted. -/
theorem pscLoopFuel_fuel_sufficient (setAttr : Nat → Bool → Bool)
    (entries : List Nat) (endv : Nat) :
    ∀ fuel cur info2 calls, endv + 1 - cur ≤ fuel →
      (pscLoopFuel setAttr entries endv fuel cur info2 calls).isOutOfFuel
        = false := by
  intro fuel
  induction fuel with
  | zero =>
    intro cur info2 calls h
    have hc : ¬ cur ≤ endv := by omega
    simp [pscLoopFuel, hc, PscOutcome.isOutOfFuel]
  | succ f ih =>
    intro cur info2 calls h
    by_cases hc : cur ≤ endv
    · rw [pscLoopFuel, if_pos hc]
      split
      · rfl
      · split
        · split
          · split
            · exact ih (cur + 1) info2 _ (by omega)
            · rfl
          · rfl
        · rfl
    · rw [pscLoopFuel, if_neg hc]
      rfl

/-- Items already processed successfully without an exit syscall do not
affect how the remaining items are processed. -/
theorem processItems_append (exec : Item → Bool) (pre rest : List Item)
    (h : processItems exec pre = Except.ok none) :
    processItems exec (pre ++ rest) = processItems exec rest := by
  induction pre with
  | nil => rfl
  | cons i tl ih =>
    cases i with
    | gdbcall =>
      rw [processItems] at h
      rw [List.cons_append, processItems]
      exact ih h
    | enarxcall num argv =>
      rw [processItems] at h
      rw [List.cons_append, processItems]
      by_cases he : exec (Item.enarxcall num argv)
      · rw [if_pos he] at h ⊢
        exact ih h
      · rw [if_neg he] at h
        exact absurd h (by simp)
    | syscall num argv =>
      rw [processItems] at h
      rw [List.cons_append, processItems]
      by_cases hn : num = SYS_exit ∨ num = SYS_exit_group
      · rw [if_pos hn] at h
        exact absurd h (by simp)
      · rw [if_neg hn] at h ⊢
        by_cases he : exec (Item.syscall num argv)
        · rw [if_pos he] at h ⊢
          exact ih h
        · rw [if_neg he] at h
          exact absurd h (by simp)

/-- C1: the claim that every guest-supplied index stays in bounds fails on
the code.  A descriptor with `cur_entry = end_entry = 253` (well inside the
16-bit range) makes the loop read `entries[253]` of the 253-entry array — a
Rust bounds-check panic — and an I/O-port write of the two bytes `[2, 0]`
with only one configured sallyport makes `enter` read `sallyports[2]` past
the end of the vector, another bounds-check panic.  Both panics are
reachable from guest-controlled values, so no out-of-bounds *memory* access
occurs, but the no-reachable-panic part of the claim is violated. -/
theorem guest_controlled_indices_panic :
    processPsc (fun _ _ => true) ⟨253, 253, List.replicate 253 0⟩ 0 =
      PscOutcome.panicked 253
  ∧ enterIoOut (fun _ => true) (fun _ => []) [some 0] 2 0 =
      EnterOutcome.panicOob 2 := by
  constructor
  · decide
  · decide

/-- C10: the page-state-change loop terminates for every initial descriptor
state: each iteration either strictly increments `cur_entry` — bounded above
by `end_entry`, which the host never modifies — or exits the loop, so a
budget of `end_entry + 1 - cur_entry` iterations is never exhausted. -/
theorem psc_loop_terminates (setAttr : Nat → Bool → Bool)
    (desc : SnpPscDesc) (info2 : Nat) :
    (processPsc setAttr desc info2).isOutOfFuel = false :=
  pscLoopFuel_fuel_sufficient setAttr desc.entries desc.end_entry
    (desc.end_entry + 1 - desc.cur_entry) desc.cur_entry info2 []
    (Nat.le_refl _)

/-- C2, counterexample: for the entry `2 ^ 51 + 2 ^ 52` — offset bits and
page-size flag zero, operation 1 — the claim says the address passed to the
attribute change is the value of bits 12 through 51, i.e. `2 ^ 51`, but the
code masks with `0x7_ffff_ffff_f000 = 2 ^ 51 - 2 ^ 12` and passes `0`:
bit 51 is dropped. -/
theorem psc_gpa_drops_bit51 :
    processPsc (fun _ _ => true) ⟨0, 0, [2 ^ 51 + 2 ^ 52]⟩ 0 =
      PscOutcome.done 1 0 [(0, 0x1000, true)]
  ∧ specGpaBits12to51 (2 ^ 51 + 2 ^ 52) = 2 ^ 51
  ∧ (0 : Nat) ≠ 2 ^ 51 := by
  refine ⟨by decide, by decide, by decide⟩

/-- C2, amended: for every descriptor entry whose offset bits and page-size
flag are zero, whenever the entry's operation (1 or 2) invokes the
attribute-change operation, the guest-physical address passed to it is
exactly the value of bits 12 through 50 of the entry (with the low 12 bits
zero) — one bit narrower than the claim's bits 12 through 51. -/
theorem psc_gpa_is_bits_12_to_50 (setAttr : Nat → Bool → Bool)
    (entry info2 : Nat) (hoff : entry &&& 0xfff = 0)
    (hps : (entry >>> 56) &&& 1 = 0) :
    ((entry >>> 52) &&& 0xf = 1 →
      processPsc setAttr ⟨0, 0, [entry]⟩ info2 =
        if setAttr (specGpaBits12to50 entry) true then
          PscOutcome.done 1 info2 [(specGpaBits12to50 entry, 0x1000, true)]
        else
          PscOutcome.done 0 0x0000010000000000
            [(specGpaBits12to50 entry, 0x1000, true)])
  ∧ ((entry >>> 52) &&& 0xf = 2 →
      processPsc setAttr ⟨0, 0, [entry]⟩ info2 =
        if setAttr (specGpaBits12to50 entry) false then
          PscOutcome.done 1 info2 [(specGpaBits12to50 entry, 0x1000, false)]
        else
          PscOutcome.done 0 0x0000010000000000
            [(specGpaBits12to50 entry, 0x1000, false)]) := by
  have hgpa : entry &&& 0x7fffffffff000 = specGpaBits12to50 entry :=
    and_gpa_mask_eq entry
  constructor
  · intro hop
    show pscLoopFuel setAttr [entry] 0 (0 + 1 - 0) 0 info2 [] = _
    rw [show (0 + 1 - 0 : Nat) = Nat.succ 0 from rfl, pscLoopFuel,
      if_pos (Nat.le_refl 0)]
    show (if (entry >>> 56) &&& 1 = 0 then _ else _) = _
    rw [if_pos hps, if_pos hoff, hop, hgpa, pscOpResult, if_pos rfl]
    by_cases hs : setAttr (specGpaBits12to50 entry) true
    · rw [if_pos hs, if_pos hs]
      rfl
    · rw [if_neg hs, if_neg hs]
      rfl
  · intro hop
    show pscLoopFuel setAttr [entry] 0 (0 + 1 - 0) 0 info2 [] = _
    rw [show (0 + 1 - 0 : Nat) = Nat.succ 0 from rfl, pscLoopFuel,
      if_pos (Nat.le_refl 0)]
    show (if (entry >>> 56) &&& 1 = 0 then _ else _) = _
    rw [if_pos hps, if_pos hoff, hop, hgpa, pscOpResult, if_neg (by decide),
      if_pos rfl]
    by_cases hs : setAttr (specGpaBits12to50 entry) false
    · rw [if_pos hs, if_pos hs]
      rfl
    · rw [if_neg hs, if_neg hs]
      rfl

/-- C2, witness: the amended theorem evaluated at the entries
`2 ^ 52 + 2 ^ 13` (operation 1, page address bits holding `2 ^ 13`) and
`2 * 2 ^ 52 + 2 ^ 13` (operation 2, same page address bits). -/
theorem psc_gpa_is_bits_12_to_50_witness :
    processPsc (fun _ _ => true) ⟨0, 0, [2 ^ 52 + 2 ^ 13]⟩ 0 =
      PscOutcome.done 1 0 [(2 ^ 13, 0x1000, true)]
  ∧ processPsc (fun _ _ => true) ⟨0, 0, [2 * 2 ^ 52 + 2 ^ 13]⟩ 0 =
      PscOutcome.done 1 0 [(2 ^ 13, 0x1000, false)] := by
  have h1 := psc_gpa_is_bits_12_to_50 (fun _ _ => true) (2 ^ 52 + 2 ^ 13) 0
    (by decide) (by decide)
  have h2 := psc_gpa_is_bits_12_to_50 (fun _ _ => true)
    (2 * 2 ^ 52 + 2 ^ 13) 0 (by decide) (by decide)
  exact ⟨by rw [h1.1 (by decide)]; decide, by rw [h2.2 (by decide)]; decide⟩

/-- C3: a descriptor whose current entry has an operation code outside
1..4 (with valid offset bits and page-size flag, so that the `ensure!`s
pass) makes the full GHCB handler write the invalid-entry error
`0x0000_0001_0000_0002` into `sw_exit_info2`, stop at once with `cur_entry`
unchanged and still pointing at that entry, perform no attribute change at
all, and return `Ok(())` rather than a fatal error. -/
theorem ghcb_invalid_op_halts (setAttr : Nat → Bool → Bool) (gfn : Nat)
    (ghcb : Ghcb) (entry : Nat)
    (husage : ghcb.ghcb_usage = 0) (hver : ghcb.protocol_version ≤ 2)
    (hcode : ghcb.save_area.sw_exit_code = 0x80000010)
    (hscratch : ghcb.save_area.sw_scratch = gfn + 2048)
    (hcur : ghcb.shared_buffer.cur_entry ≤ ghcb.shared_buffer.end_entry)
    (hget : ghcb.shared_buffer.entries.get? ghcb.shared_buffer.cur_entry
      = some entry)
    (hoff : entry &&& 0xfff = 0) (hps : (entry >>> 56) &&& 1 = 0)
    (hop1 : (entry >>> 52) &&& 0xf ≠ 1) (hop2 : (entry >>> 52) &&& 0xf ≠ 2)
    (hop3 : (entry >>> 52) &&& 0xf ≠ 3) (hop4 : (entry >>> 52) &&& 0xf ≠ 4) :
    handleGhcbRequest setAttr gfn ghcb =
      GhcbOutcome.psc (PscOutcome.done ghcb.shared_buffer.cur_entry
        0x0000000100000002 []) := by
  rw [handleGhcbRequest, if_pos husage, if_pos hver, if_pos hcode,
    if_pos hscratch]
  have hf : ghcb.shared_buffer.end_entry + 1 - ghcb.shared_buffer.cur_entry
      = Nat.succ (ghcb.shared_buffer.end_entry
        - ghcb.shared_buffer.cur_entry) := by omega
  rw [processPsc, hf, pscLoopFuel, if_pos hcur, hget]
  show GhcbOutcome.psc (if (entry >>> 56) &&& 1 = 0 then _ else _) = _
  rw [if_pos hps, if_pos hoff, pscOpResult, if_neg hop1, if_neg hop2,
    if_neg hop3, if_neg hop4]
  rfl

/-- C3, witness: a concrete GHCB at `gfn = 0` whose descriptor's entry 0
carries operation 5. -/
theorem ghcb_invalid_op_halts_witness :
    handleGhcbRequest (fun _ _ => true) 0
      ⟨⟨0x80000010, 0, 2048⟩, ⟨0, 0, (5 <<< 52) :: List.replicate 252 0⟩,
        2, 0⟩ =
      GhcbOutcome.psc (PscOutcome.done 0 0x0000000100000002 []) := by
  exact ghcb_invalid_op_halts (fun _ _ => true) 0 _ (5 <<< 52) rfl
    (by decide) rfl rfl (by decide) (by decide) (by decide) (by decide)
    (by decide) (by decide) (by decide) (by decide)

/-- C4: a GHCB with nonzero `ghcb_usage` or with `protocol_version` above 2
makes `handle_ghcb_request` fail fatally, and in the nonzero-usage case the
result is `fatal` for every value of `sw_exit_code` — the usage check
happens before `sw_exit_code` is inspected, so the outcome cannot depend on
it. -/
theorem ghcb_framing_validated (setAttr : Nat → Bool → Bool) (gfn : Nat)
    (ghcb : Ghcb)
    (h : ghcb.ghcb_usage ≠ 0 ∨ 2 < ghcb.protocol_version) :
    handleGhcbRequest setAttr gfn ghcb = GhcbOutcome.fatal
  ∧ (ghcb.ghcb_usage ≠ 0 → ∀ c,
      handleGhcbRequest setAttr gfn
        { ghcb with save_area := { ghcb.save_area with sw_exit_code := c } }
        = GhcbOutcome.fatal) := by
  constructor
  · rcases h with hu | hv
    · rw [handleGhcbRequest, if_neg hu]
    · rw [handleGhcbRequest]
      by_cases hu : ghcb.ghcb_usage = 0
      · rw [if_pos hu, if_neg (by omega)]
      · rw [if_neg hu]
  · intro hu c
    rw [handleGhcbRequest]
    exact if_neg hu

/-- C4, witness: a concrete GHCB with `ghcb_usage = 1` is rejected, and
still rejected with `sw_exit_code` replaced by the page-state-change code
`0x8000_0010`. -/
theorem ghcb_framing_validated_witness :
    handleGhcbRequest (fun _ _ => true) 0 ⟨⟨0, 0, 0⟩, ⟨0, 0, []⟩, 2, 1⟩ =
      GhcbOutcome.fatal
  ∧ handleGhcbRequest (fun _ _ => true) 0
      ⟨⟨0x80000010, 0, 0⟩, ⟨0, 0, []⟩, 2, 1⟩ = GhcbOutcome.fatal := by
  have h := ghcb_framing_validated (fun _ _ => true) 0
    ⟨⟨0, 0, 0⟩, ⟨0, 0, []⟩, 2, 1⟩ (Or.inl (by decide))
  exact ⟨h.1, h.2 (by decide) 0x80000010⟩

/-- C5: when the item loop reaches a `Syscall` item whose number is
`SYS_exit` or `SYS_exit_group` (everything before it processed without an
exit and without an error), `enter` returns `Exit` with the syscall's first
argument immediately: the items after it — `post` is arbitrary and absent
from the result — are never processed, and the mailbox slot is left empty
rather than restored. -/
theorem enter_exit_shortcircuits (exec : Item → Bool)
    (itemsOf : Nat → List Item) (sallyports : List (Option Nat))
    (data0 data1 b num : Nat) (pre post : List Item) (argv : List Nat)
    (hslot : sallyports.get? (data0 + data1 * 256) = some (some b))
    (hitems : itemsOf b = pre ++ Item.syscall num argv :: post)
    (hpre : processItems exec pre = Except.ok none)
    (hnum : num = SYS_exit ∨ num = SYS_exit_group) :
    enterIoOut exec itemsOf sallyports data0 data1 =
      EnterOutcome.exit (argv.headD 0)
        (sallyports.set (data0 + data1 * 256) none)
  ∧ (sallyports.set (data0 + data1 * 256) none).get?
      (data0 + data1 * 256) = some none := by
  have hn : data0 + data1 * 256 < sallyports.length := by
    rcases List.get?_eq_some.mp hslot with ⟨hlt, -⟩
    exact hlt
  constructor
  · simp only [enterIoOut, hslot]
    rw [hitems, processItems_append exec pre _ hpre, processItems,
      if_pos hnum]
  · exact List.get?_set_eq_of_lt none hn

/-- C5, witness: mailbox 3 holds a single `Syscall` item with
`num = SYS_exit` and `argv[0] = 7`; the pass returns `Exit 7` and leaves
slot 3 empty. -/
theorem enter_exit_shortcircuits_witness :
    enterIoOut (fun _ => true)
      (fun _ => [Item.syscall 60 [7, 0, 0, 0, 0, 0]])
      [none, none, none, some 42] 3 0 =
      EnterOutcome.exit 7 [none, none, none, none]
  ∧ ([none, none, none, (none : Option Nat)].get? 3) = some none := by
  have h := enter_exit_shortcircuits (fun _ => true)
    (fun _ => [Item.syscall 60 [7, 0, 0, 0, 0, 0]])
    [none, none, none, some 42] 3 0 42 60 [] [] [7, 0, 0, 0, 0, 0]
    (by decide) rfl rfl (Or.inl rfl)
  exact ⟨by rw [h.1]; decide, by decide⟩

/-- C6, counterexample: taking an already-empty mailbox slot does not fail
with a distinct error variant — it crashes through the `unwrap` on the
`None` returned by `take`, which is exactly the unchecked unwrap-style
crash the claim excludes (the explicit-error outcome of the model,
`EnterOutcome.fatal`, is not what results). -/
theorem empty_slot_take_unwrap_counterexample :
    enterIoOut (fun _ => true) (fun _ => []) [none] 0 0 =
      EnterOutcome.panicUnwrap
  ∧ EnterOutcome.panicUnwrap ≠ EnterOutcome.fatal := by
  exact ⟨by decide, by decide⟩

/-- C6, amended: when the syscall-trigger handler takes a mailbox slot that
is already empty, it panics through `.take().unwrap()` — an unwrap-style
crash on the protocol violation, not a distinct error variant. -/
theorem empty_slot_take_panics (exec : Item → Bool)
    (itemsOf : Nat → List Item) (sallyports : List (Option Nat))
    (data0 data1 : Nat)
    (h : sallyports.get? (data0 + data1 * 256) = some none) :
    enterIoOut exec itemsOf sallyports data0 data1 =
      EnterOutcome.panicUnwrap := by
  simp only [enterIoOut, h]

/-- C6, witness: the amended theorem applied to a one-slot sallyport vector
whose slot 0 is empty. -/
theorem empty_slot_take_panics_witness :
    enterIoOut (fun _ => true) (fun _ => [Item.gdbcall]) [none] 0 0 =
      EnterOutcome.panicUnwrap :=
  empty_slot_take_panics (fun _ => true) (fun _ => [Item.gdbcall]) [none]
    0 0 (by decide)

/-- C7: when a proxy pass over a mailbox completes without an exit syscall
(and without an execution error), the mailbox slot is non-empty again at
the end of the pass and holds the same block identity that was taken at the
start. -/
theorem mailbox_restored_after_pass (exec : Item → Bool)
    (itemsOf : Nat → List Item) (sallyports : List (Option Nat))
    (data0 data1 b : Nat)
    (hslot : sallyports.get? (data0 + data1 * 256) = some (some b))
    (hdone : processItems exec (itemsOf b) = Except.ok none) :
    enterIoOut exec itemsOf sallyports data0 data1 =
      EnterOutcome.cont (sallyports.set (data0 + data1 * 256) (some b))
  ∧ (sallyports.set (data0 + data1 * 256) (some b)).get?
      (data0 + data1 * 256) = some (some b) := by
  have hn : data0 + data1 * 256 < sallyports.length := by
    rcases List.get?_eq_some.mp hslot with ⟨hlt, -⟩
    exact hlt
  constructor
  · simp only [enterIoOut, hslot, hdone]
    rw [List.set_set]
  · exact List.get?_set_eq_of_lt (some b) hn

/-- C7, witness: a pass over mailbox 0 holding block 5 with no items
restores slot 0 to the same block. -/
theorem mailbox_restored_after_pass_witness :
    enterIoOut (fun _ => true) (fun _ => []) [some 5] 0 0 =
      EnterOutcome.cont [some 5]
  ∧ ([some (5 : Nat)].get? 0) = some (some 5) := by
  have h := mailbox_restored_after_pass (fun _ => true) (fun _ => [])
    [some 5] 0 0 5 (by decide) rfl
  exact ⟨by rw [h.1]; decide, by decide⟩

/-- C8, counterexample: at `log2 = 76` with a 4096-byte host page size and
the aligned address 0, the mathematical `1 << 76` differs from the host
page size, so the claim demands `EINVAL` with no allocation; but the
source's `1usize << 76` masks the shift amount (release build) down to
`1 << 12 = 4096`, the size/alignment check passes, and `balloon` allocates
4096 bytes and maps them into the guest (a debug build would panic on the
shift overflow instead of returning `EINVAL`). -/
theorem balloon_shift_overflow_counterexample :
    (1 <<< 76 : Nat) ≠ 4096
  ∧ balloon 4096 (fun _ => Except.ok 7) (fun _ _ _ => Except.ok 9) 76 1 0
      true = (Except.ok 9, [4096]) := by
  exact ⟨by decide, by rfl⟩

/-- C8, amended: whenever the requested page size `1usize << log2` — which
on the 64-bit target shifts by `log2 % 64` — differs from the host page
size or `addr` is not aligned to it, `balloon` returns `EINVAL` and
performs no memory allocation before returning (the recorded allocation
list is empty). -/
theorem balloon_rejects_bad_size_or_align (pgsz : Nat)
    (alloc : Nat → Except Nat Nat) (mapVm : Nat → Nat → Bool → Except Nat Nat)
    (log2 npgs addr : Nat) (is_private : Bool)
    (h : 1 <<< (log2 % 64) ≠ pgsz ∨ addr % (1 <<< (log2 % 64)) ≠ 0) :
    balloon pgsz alloc mapVm log2 npgs addr is_private =
      (Except.error EINVAL, []) := by
  rw [balloon]
  exact if_pos h

/-- C8, witness: `log2 = 0` against a 4096-byte host page size is rejected
with `EINVAL` and no allocation. -/
theorem balloon_rejects_bad_size_or_align_witness :
    balloon 4096 (fun _ => Except.ok 0) (fun _ _ _ => Except.ok 0) 0 1 0
      true = (Except.error EINVAL, []) :=
  balloon_rejects_bad_size_or_align 4096 (fun _ => Except.ok 0)
    (fun _ _ _ => Except.ok 0) 0 1 0 true (Or.inl (by decide))

/-- C9: every MSR value with low 12 bits `0x014` is dispatched to the
fast-path page-state handler, which decodes the guest-physical address and
the 4-bit operation from the MSR bits; operation 1 performs exactly one
4KiB attribute change to private and operation 2 exactly one to shared
(succeeding exactly when the device call does), and every other operation
value performs no attribute change and returns the fatal error. -/
theorem msr_psc_fastpath (setAttr : Nat → Bool → Bool) (ghcb_msr : Nat)
    (h : ghcb_msr &&& 0xfff = 0x014) :
    vmgexitDispatch ghcb_msr = VmgexitDispatch.msrPsc ghcb_msr
  ∧ ((ghcb_msr >>> 52) &&& 0xf = 1 →
      handle_msr_page_state_request setAttr ghcb_msr =
        ([(ghcb_msr &&& 0x7fffffffff000, 0x1000, true)],
          setAttr (ghcb_msr &&& 0x7fffffffff000) true))
  ∧ ((ghcb_msr >>> 52) &&& 0xf = 2 →
      handle_msr_page_state_request setAttr ghcb_msr =
        ([(ghcb_msr &&& 0x7fffffffff000, 0x1000, false)],
          setAttr (ghcb_msr &&& 0x7fffffffff000) false))
  ∧ ((ghcb_msr >>> 52) &&& 0xf ≠ 1 → (ghcb_msr >>> 52) &&& 0xf ≠ 2 →
      handle_msr_page_state_request setAttr ghcb_msr = ([], false)) := by
  refine ⟨?_, ?_, ?_, ?_⟩
  · rw [vmgexitDispatch, if_neg (by rw [h]; decide), if_pos h]
  · intro hop
    rw [handle_msr_page_state_request]
    show (if (ghcb_msr >>> 52) &&& 0xf = 1 then _ else _) = _
    rw [if_pos hop]
  · intro hop
    rw [handle_msr_page_state_request]
    show (if (ghcb_msr >>> 52) &&& 0xf = 1 then _ else _) = _
    rw [if_neg (by rw [hop]; decide), if_pos hop]
  · intro hop1 hop2
    rw [handle_msr_page_state_request]
    show (if (ghcb_msr >>> 52) &&& 0xf = 1 then _ else _) = _
    rw [if_neg hop1, if_neg hop2]

/-- C9, witness: the MSR value `2 ^ 52 + 0x5014` (function code `0x014`,
operation 1, page `0x5000`) is dispatched to the fast path and performs the
single private 4KiB attribute change. -/
theorem msr_psc_fastpath_witness :
    vmgexitDispatch (2 ^ 52 + 0x5014) =
      VmgexitDispatch.msrPsc (2 ^ 52 + 0x5014)
  ∧ handle_msr_page_state_request (fun _ _ => true) (2 ^ 52 + 0x5014) =
      ([(0x5000, 0x1000, true)], true) := by
  have h := msr_psc_fastpath (fun _ _ => true) (2 ^ 52 + 0x5014) (by decide)
  exact ⟨h.1, by rw [h.2.1 (by decide)]; decide⟩

end Enarx
